import Mathlib

/-!
Verification of the browser-cookie extraction library (`__init__.py`).

The Python source is shallowly embedded: byte strings become `List Nat`,
Python exceptions become `Except PyErr` or `Option`, and each function of
the source that the claims depend on is translated to an executable Lean
definition bearing (a Lean-compatible form of) its source name.
-/

/-- Python values that appear in the fields of an `http.cookiejar.Cookie`
as this library constructs them: ints, floats (kept exactly, as integer
microseconds since 1970, the resolution `datetime.timestamp` delivers),
strings, bools, and `None`. -/
inductive PyVal where
  | int (n : Int)
  | float (micros : Int)
  | str (s : String)
  | bool (b : Bool)
  | none
deriving DecidableEq

/-- Python exception kinds relevant to this library: its own
`BrowserCookieError`, `NameError` (including `UnboundLocalError`), and a
catch-all for other exception classes. -/
inductive PyErr where
  | browserCookieError (msg : String)
  | nameError (msg : String)
  | otherError (msg : String)
deriving DecidableEq

/-- True exactly on `BrowserCookieError`, the only class the aggregator
`load` catches. -/
def isBrowserCookieError : PyErr → Bool
  | PyErr.browserCookieError _ => true
  | _ => false

/-- The fields of `http.cookiejar.Cookie` that `create_cookie` sets to
non-constant values (plus the constants it fixes). -/
structure PyCookie where
  version : Int
  name : String
  value : String
  domain : String
  domainSpecified : Bool
  domainInitialDot : Bool
  path : String
  pathSpecified : Bool
  secure : PyVal
  expires : PyVal
  discard : Bool
deriving DecidableEq

/-- Embedding of `create_cookie(host, path, secure, expires, name, value)`:
builds `http.cookiejar.Cookie(0, name, value, None, False, host,
host.startswith('.'), host.startswith('.'), path, True, secure, expires,
False, None, None, {})`. -/
def create_cookie (host path : String) (secure expires : PyVal) (name value : String) : PyCookie :=
  { version := 0
    name := name
    value := value
    domain := host
    domainSpecified := host.startsWith "."
    domainInitialDot := host.startsWith "."
    path := path
    pathSpecified := true
    secure := secure
    expires := expires
    discard := false }

/-- Key equality used by `http.cookiejar.CookieJar.set_cookie`, which stores
cookies in nested dicts indexed by domain, then path, then name. -/
def cookieKeyEq (a b : PyCookie) : Bool :=
  a.domain == b.domain && a.path == b.path && a.name == b.name

/-- Embedding of `CookieJar.set_cookie`: the jar is a sequence with at most
one cookie per (domain, path, name); an existing key is overwritten in
place (dict update), a new key is appended (dict insertion order). -/
def setCookie (jar : List PyCookie) (c : PyCookie) : List PyCookie :=
  if jar.any (fun x => cookieKeyEq x c) then
    jar.map (fun x => if cookieKeyEq x c then c else x)
  else
    jar ++ [c]

/-- Lower-case an ASCII letter, as SQLite `LIKE` does when comparing. -/
def sqliteLowerChar (c : Char) : Char :=
  if 65 ≤ c.toNat && c.toNat ≤ 90 then Char.ofNat (c.toNat + 32) else c

/-- Whether `p` occurs at the start of `l`. -/
def listStarts : List Char → List Char → Bool
  | [], _ => true
  | _ :: _, [] => false
  | p :: ps, c :: cs => p == c && listStarts ps cs

/-- Whether `p` occurs as a contiguous run somewhere in `l`. -/
def listHasSub (p : List Char) : List Char → Bool
  | [] => listStarts p []
  | c :: cs => listStarts p (c :: cs) || listHasSub p cs

/-- Embedding of the SQL filter `host like "%{domain}%"`: ASCII
case-insensitive substring containment (empty pattern matches all rows). -/
def likeContains (pat host : String) : Bool :=
  listHasSub (pat.data.map sqliteLowerChar) (host.data.map sqliteLowerChar)

/-- One raw row of the Chrome `cookies` table in the column order selected
by `Chrome.load`: host_key, path, secure/is_secure, expires_utc, name,
value, encrypted_value. -/
structure ChromeRow where
  host_key : String
  path : String
  secure : Int
  expires_utc : Int
  name : String
  value : String
  encrypted_value : List Nat
deriving DecidableEq

/-- Microseconds from 1601-01-01 to 1970-01-01 (11644473600 seconds):
the offset `datetime.datetime(1601,1,1) + timedelta(microseconds=ts)`
effectively subtracts when `.timestamp()` is taken. -/
def microsFrom1601To1970 : Int := 11644473600000000

/-- Largest microsecond count such that `datetime(1601,1,1) + timedelta`
still fits below `datetime.max` (9999-12-31 23:59:59.999999); beyond it
the addition raises `OverflowError`. -/
def chromeMaxMicros : Int := 265046774399999999

/-- Smallest (most negative) microsecond count such that the sum stays at
or above `datetime.min` (0001-01-01); below it the addition raises
`OverflowError`. -/
def chromeMinMicros : Int := -50491123200000000

/-- Embedding of the expiry computation in `Chrome.load`: `expires` starts
as the raw `expires_utc` column; when it is non-zero the code computes
`(datetime(1601,1,1) + timedelta(microseconds=ts)).timestamp()`.
`Option.none` models the `OverflowError`/`OSError` that the surrounding
`try` catches; `.timestamp()` is modelled at UTC offset zero with exact
microsecond arithmetic. -/
def chromeRowExpires (ts : Int) : Option PyVal :=
  if ts = 0 then some (PyVal.int 0)
  else if chromeMinMicros ≤ ts ∧ ts ≤ chromeMaxMicros then
    some (PyVal.float (ts - microsFrom1601To1970))
  else Option.none

/-- Embedding of one iteration of the row loop in `Chrome.load`: convert
the expiry, decrypt the value (the platform decrypt `self._decrypt` is the
parameter `dec`), and build the cookie; `Option.none` models a row skipped
by the `except (OverflowError, OSError): continue` clause. -/
def chromeProcessRow (dec : String → List Nat → String) (row : ChromeRow) : Option PyCookie :=
  (chromeRowExpires row.expires_utc).map (fun exp =>
    create_cookie row.host_key row.path (PyVal.int row.secure) exp row.name
      (dec row.value row.encrypted_value))

/-- The sequence of cookies produced by the row loop of `Chrome.load`
(rows whose conversion raises are skipped individually). -/
def chromeLoadRows (dec : String → List Nat → String) (rows : List ChromeRow) : List PyCookie :=
  rows.filterMap (chromeProcessRow dec)

/-- The two column dialects of the Chrome `cookies` table: the legacy one
(`secure`, Chrome 55 and older) and the newer one (`is_secure`,
Chrome 56 and newer). -/
inductive Dialect where
  | legacy
  | newer
deriving DecidableEq

/-- Kind of error `sqlite3` raises on a query naming an unknown column. -/
inductive SqlError where
  | operationalError
deriving DecidableEq

/-- A Chrome cookie store: which of the two column dialects its schema
exposes, and its rows. -/
structure ChromeStore where
  hasLegacyColumns : Bool
  hasNewColumns : Bool
  rows : List ChromeRow
deriving DecidableEq

/-- The rows a well-formed `SELECT ... WHERE host_key like "%{domain}%"`
returns from the store. -/
def chromeQueryRows (st : ChromeStore) (domain : String) : List ChromeRow :=
  st.rows.filter (fun r => likeContains domain r.host_key)

/-- Issue the `SELECT` of `Chrome.load` under one column dialect: the query
succeeds when the store schema has that dialect column, else raises
`sqlite3.OperationalError`. -/
def queryDialect (st : ChromeStore) (domain : String) : Dialect → Except SqlError (List ChromeRow)
  | Dialect.legacy =>
    if st.hasLegacyColumns then Except.ok (chromeQueryRows st domain)
    else Except.error SqlError.operationalError
  | Dialect.newer =>
    if st.hasNewColumns then Except.ok (chromeQueryRows st domain)
    else Except.error SqlError.operationalError

/-- The dialects `Chrome.load` tries, in order: first the `secure` query
(comment `# chrome <=55`), and only inside `except sqlite3.OperationalError`
the `is_secure` query (comment `# chrome >=56`). -/
def chromeQueryAttempts (st : ChromeStore) (domain : String) : List Dialect :=
  match queryDialect st domain Dialect.legacy with
  | Except.ok _ => [Dialect.legacy]
  | Except.error _ => [Dialect.legacy, Dialect.newer]

/-- Embedding of the try/except query step of `Chrome.load`. -/
def chromeLoadQuery (st : ChromeStore) (domain : String) : Except SqlError (List ChromeRow) :=
  match queryDialect st domain Dialect.legacy with
  | Except.ok rows => Except.ok rows
  | Except.error _ => queryDialect st domain Dialect.newer

/-- Byte-wise XOR, as `pyaes` applies between a decrypted block and the
previous ciphertext block in CBC mode. -/
def xorBytes (a b : List Nat) : List Nat :=
  List.zipWith Nat.xor a b

/-- State of a `pyaes.Decrypter` fed incrementally: the previous ciphertext
block (initially the IV), the bytes buffered but not yet decrypted, and the
plaintext emitted so far. -/
structure FeederSt where
  prev : List Nat
  buf : List Nat
  out : List Nat
deriving DecidableEq

/-- Decrypt one 16-byte block off the front of the buffer (CBC step of
`AESModeOfOperationCBC.decrypt`); `D` is the raw AES block decryption. -/
def stepSt (D : List Nat → List Nat) (st : FeederSt) : FeederSt :=
  { prev := st.buf.take 16
    buf := st.buf.drop 16
    out := st.out ++ xorBytes (D (st.buf.take 16)) st.prev }

/-- The consuming loop of `BlockFeeder.feed`: decrypt full blocks while
more than one block remains buffered (the final 16 bytes are withheld so
padding can be stripped at the end). -/
def consume (D : List Nat → List Nat) (st : FeederSt) : FeederSt :=
  if _h : 32 ≤ st.buf.length then consume D (stepSt D st)
  else st
termination_by st.buf.length
decreasing_by simp only [stepSt, List.length_drop]; omega

/-- Append newly fed bytes to the feeder buffer. -/
def pushData (st : FeederSt) (d : List Nat) : FeederSt :=
  { st with buf := st.buf ++ d }

/-- Embedding of `Decrypter.feed(data)`: buffer the data, then decrypt as
many full blocks as can be consumed. -/
def feed (D : List Nat → List Nat) (st : FeederSt) (d : List Nat) : FeederSt :=
  consume D (pushData st d)

/-- Embedding of Python slicing `data[:-pad]` for `0 ≤ pad`. -/
def pySliceDropLast (data : List Nat) (pad : Nat) : List Nat :=
  if pad = 0 then [] else data.take (data.length - pad)

/-- Embedding of `pyaes` `strip_PKCS7_padding`: requires a block-multiple
length, reads the final byte as the pad length, rejects pads above 16, and
drops that many bytes; `Option.none` models the `ValueError` it raises. -/
def strip_PKCS7 (data : List Nat) : Option (List Nat) :=
  match data.getLast? with
  | Option.none => Option.none
  | some pad =>
    if data.length % 16 ≠ 0 ∨ 16 < pad then Option.none
    else some (pySliceDropLast data pad)

/-- Embedding of the final `Decrypter.feed()`: the withheld bytes must form
exactly one block; it is CBC-decrypted and its PKCS#7 padding stripped.
`Option.none` models the `ValueError` raised on invalid trailing data. -/
def feedFinal (D : List Nat → List Nat) (st : FeederSt) : Option (List Nat) :=
  if st.buf.length = 16 then
    (strip_PKCS7 (xorBytes (D st.buf) st.prev)).map (fun p => st.out ++ p)
  else Option.none

/-- Fresh `pyaes.Decrypter(pyaes.AESModeOfOperationCBC(key, iv))` state. -/
def decrypterInit (iv : List Nat) : FeederSt :=
  { prev := iv, buf := [], out := [] }

/-- Embedding of the decryption calls in `Chrome._decrypt`: the
marker-stripped ciphertext is fed to the decrypter in two halves (split at
`int(len(encrypted_value) / 2)`) followed by the final feed. -/
def chromeAesDecryptTwoFeeds (D : List Nat → List Nat) (iv ct : List Nat) : Option (List Nat) :=
  let half := ct.length / 2
  feedFinal D (feed D (feed D (decrypterInit iv) (ct.take half)) (ct.drop half))

/-- Specification-side reading of the same step (spec 4.3: the two-feed
split is "equivalent to a single decrypt call"): the whole ciphertext in
one feed, then the final feed. -/
def chromeAesDecryptSingleSpec (D : List Nat → List Nat) (iv ct : List Nat) : Option (List Nat) :=
  feedFinal D (feed D (decrypterInit iv) ct)

/-- Result of `Chrome._decrypt` / `Chrome._decrypt_windows_chrome`: either
the plaintext column returned as-is, or decrypted bytes (to be decoded as
text). -/
inductive DecOut where
  | plain (s : String)
  | decoded (bytes : List Nat)
deriving DecidableEq

/-- The bytes of the marker `b'v10'`. -/
def v10Marker : List Nat := [118, 49, 48]

/-- Embedding of the non-Windows branch of `Chrome._decrypt`: return
`value` when it is truthy or when `encrypted_value[:3] != b'v10'`;
otherwise strip the marker and run the two-feed AES-CBC decryption.
`Option.none` models an uncaught decryption error. -/
def chromeDecrypt (D : List Nat → List Nat) (iv : List Nat)
    (value : String) (encrypted_value : List Nat) : Option DecOut :=
  if value ≠ "" ∨ encrypted_value.take 3 ≠ v10Marker then
    some (DecOut.plain value)
  else
    (chromeAesDecryptTwoFeeds D iv (encrypted_value.drop 3)).map DecOut.decoded

/-- Python 3 equality between a `bytes` object and a `str` object: always
`False`, whatever the operands (`encrypted_value == ""` in
`_decrypt_windows_chrome` compares bytes to str). -/
def pyBytesEqStr (_ : List Nat) (_ : String) : Bool := false

/-- Embedding of `Chrome._decrypt_windows_chrome`: non-empty `value` passes
through; then the (always false) bytes-vs-str emptiness test; otherwise the
blob is unwrapped by DPAPI (`crypt_unprotect_data`, the opaque capability
`unprotect`; `Option.none` models its `RuntimeError`). -/
def chromeDecryptWindows (unprotect : List Nat → Option (List Nat))
    (value : String) (encrypted_value : List Nat) : Option DecOut :=
  if value ≠ "" then some (DecOut.plain value)
  else if pyBytesEqStr encrypted_value "" then some (DecOut.plain "")
  else (unprotect encrypted_value).map DecOut.decoded

/-- The keys of one section of `profiles.ini` that
`Firefox.get_default_profile` looks up (`Default`, `IsRelative`, `Path`);
`Option.none` models a missing key, whose lookup raises `KeyError`. -/
structure IniSection where
  defaultKey : Option String
  isRelativeKey : Option String
  pathKey : Option String
deriving DecidableEq

/-- The `NameError` raised by the final `return none` of
`Firefox.get_default_profile` (lowercase `none` is an undefined name). -/
def noneNameErr : PyErr := PyErr.nameError "name none is not defined"

/-- Embedding of `Firefox.get_default_profile`: scan the sections in order;
a `KeyError` on `Default`, `IsRelative` or `Path` is caught and the loop
continues; the first section with `Default == 1` and `IsRelative == 1` and
a `Path` yields the formatted template; falling off the loop executes
`return none`, which raises `NameError`. -/
def getDefaultProfile (template : String → String) : List IniSection → Except PyErr String
  | [] => Except.error noneNameErr
  | s :: rest =>
    match s.defaultKey with
    | Option.none => getDefaultProfile template rest
    | some d =>
      if d ≠ "1" then getDefaultProfile template rest
      else
        match s.isRelativeKey with
        | Option.none => getDefaultProfile template rest
        | some r =>
          if r ≠ "1" then getDefaultProfile template rest
          else
            match s.pathKey with
            | Option.none => getDefaultProfile template rest
            | some p => Except.ok (template p)

/-- Reading a Python local variable: `Option.none` is the unassigned state,
whose read raises `UnboundLocalError` (a `NameError`). -/
def localRead (v : Option String) : Except PyErr String :=
  match v with
  | some s => Except.ok s
  | Option.none =>
    Except.error (PyErr.nameError
      "UnboundLocalError: local variable profiles_ini_path referenced before assignment")

/-- Embedding of the darwin branch of `Firefox.find_cookie_file`: the call
`....format(profiles_ini_path)` on the template argument reads the local
`profiles_ini_path` before any assignment to it, so the branch raises
`UnboundLocalError` before `get_default_profile` or any glob fallback can
run (everything after the first bind is unreachable). -/
def findCookieFileDarwin (sections : List IniSection) (globCookieFiles : List String) :
    Except PyErr String := do
  let templateArg ← localRead Option.none
  let profilesIniPath ← getDefaultProfile (fun _ => templateArg) sections
  match (if globCookieFiles.isEmpty then [profilesIniPath] else globCookieFiles) with
  | [] => Except.error (PyErr.browserCookieError "Failed to find Firefox cookie")
  | f :: _ => Except.ok f

/-- One cookie object of a Firefox session-recovery artifact; the fields
are read with `cookie_json.get(key, '')`, so each may be missing. Artifacts
may carry further fields (such as an expiry) that the code never reads;
`expiryKey` records one to state that independence. -/
structure SessionEntryJson where
  host : Option String
  path : Option String
  name : Option String
  value : Option String
  expiryKey : Option Int
deriving DecidableEq

/-- Embedding of `Firefox.__create_session_cookie`: expiry is the string
`str(int(time.time()) + 3600 * 24 * 7)` (`now` is `int(time.time())`),
secure is `False`, and the four text fields default to the empty string. -/
def createSessionCookie (now : Int) (j : SessionEntryJson) : PyCookie :=
  create_cookie (j.host.getD "") (j.path.getD "") (PyVal.bool false)
    (PyVal.str (toString (now + 3600 * 24 * 7))) (j.name.getD "") (j.value.getD "")

/-- State of a session-recovery artifact on disk, as the reading code can
observe it: absent (the `os.path.exists` guard fails), malformed (reading
and parsing raises `ValueError`, carrying the message), or parsed. -/
inductive ArtifactState (α : Type) where
  | absent
  | malformed (msg : String)
  | parsed (content : α)
deriving DecidableEq

/-- Parsed shape `sessionstore.js` is read through:
`json_data.get('windows', [])`, then `window.get('cookies', [])`. -/
structure SessionStoreJson where
  windows : Option (List (Option (List SessionEntryJson)))
deriving DecidableEq

/-- Parsed shape `recovery.jsonlz4` is read through (after the 8-byte
header skip and block decompression): `json_data.get('cookies', [])`. -/
structure Lz4StoreJson where
  cookies : Option (List SessionEntryJson)
deriving DecidableEq

/-- Embedding of `Firefox.__add_session_cookies`: an absent file adds
nothing; a `ValueError` during read/parse prints a message and adds
nothing; otherwise every cookie of every window is added to the jar. The
second component is the log output. -/
def addSessionCookies (now : Int) (art : ArtifactState SessionStoreJson)
    (cj : List PyCookie) : List PyCookie × List String :=
  match art with
  | ArtifactState.absent => (cj, [])
  | ArtifactState.malformed m => (cj, ["Error parsing firefox session JSON: " ++ m])
  | ArtifactState.parsed j =>
    ((j.windows.getD []).foldl
      (fun acc w => (w.getD []).foldl
        (fun a c => setCookie a (createSessionCookie now c)) acc) cj, [])

/-- Embedding of `Firefox.__add_session_cookies_lz4`: same policy for the
compressed artifact, over the top-level `cookies` list. -/
def addSessionCookiesLz4 (now : Int) (art : ArtifactState Lz4StoreJson)
    (cj : List PyCookie) : List PyCookie × List String :=
  match art with
  | ArtifactState.absent => (cj, [])
  | ArtifactState.malformed m => (cj, ["Error parsing firefox session JSON LZ4: " ++ m])
  | ArtifactState.parsed j =>
    ((j.cookies.getD []).foldl
      (fun a c => setCookie a (createSessionCookie now c)) cj, [])

/-- One row of the Firefox `moz_cookies` query, in the selected column
order: host, path, isSecure, expiry, name, value. -/
structure FirefoxRow where
  host : String
  path : String
  isSecure : Int
  expiry : Int
  name : String
  value : String
deriving DecidableEq

/-- The cookie `Firefox.load` builds from one store row: the six columns
are passed to `create_cookie` unchanged (the expiry is already in
1970-epoch seconds). -/
def firefoxRowCookie (r : FirefoxRow) : PyCookie :=
  create_cookie r.host r.path (PyVal.int r.isSecure) (PyVal.int r.expiry) r.name r.value

/-- The jar `Firefox.load` builds from the primary store before session
recovery runs. -/
def firefoxStoreCookies (domain : String) (rows : List FirefoxRow) : List PyCookie :=
  ((rows.filter (fun r => likeContains domain r.host)).map firefoxRowCookie).foldl setCookie []

/-- Embedding of `Firefox.load`: query the primary store, then fold in both
session-recovery artifacts; the second component collects the log lines the
two readers print. -/
def firefoxLoad (now : Int) (domain : String) (rows : List FirefoxRow)
    (art : ArtifactState SessionStoreJson) (artLz4 : ArtifactState Lz4StoreJson) :
    List PyCookie × List String :=
  let cj := firefoxStoreCookies domain rows
  let r1 := addSessionCookies now art cj
  let r2 := addSessionCookiesLz4 now artLz4 r1.1
  (r2.1, r1.2 ++ r2.2)

/-- Whether the aggregator `load` absorbs this per-browser outcome:
successes and `BrowserCookieError` failures are absorbed, every other
exception class propagates. -/
def absorbable : Except PyErr (List PyCookie) → Bool
  | Except.ok _ => true
  | Except.error (PyErr.browserCookieError _) => true
  | Except.error _ => false

/-- One iteration of the aggregator loop of `load`: an already-raised
exception propagates; a successful browser adds its cookies to the jar; a
`BrowserCookieError` is swallowed by the `except` clause; any other
exception escapes the loop. -/
def loadStep (acc r : Except PyErr (List PyCookie)) : Except PyErr (List PyCookie) :=
  match acc with
  | Except.error e => Except.error e
  | Except.ok cj =>
    match r with
    | Except.ok cookies => Except.ok (cookies.foldl setCookie cj)
    | Except.error (PyErr.browserCookieError _) => Except.ok cj
    | Except.error e => Except.error e

/-- Embedding of the all-browsers entry point `load`: each element of
`results` is the outcome of one browser pipeline (`chrome`, `firefox`), in
the fixed order the source iterates them. -/
def loadAll (results : List (Except PyErr (List PyCookie))) : Except PyErr (List PyCookie) :=
  results.foldl loadStep (Except.ok [])

theorem stepSt_pushData (D : List Nat → List Nat) (st : FeederSt) (b : List Nat)
    (h : 16 ≤ st.buf.length) :
    stepSt D (pushData st b) = pushData (stepSt D st) b := by
  simp only [stepSt, pushData]
  refine FeederSt.mk.injEq _ _ _ _ _ _ ▸ ?_
  constructor
  · rw [List.take_append_of_le_length h]
  constructor
  · rw [List.drop_append_of_le_length h]
  · rw [List.take_append_of_le_length h]

theorem consume_pushData (D : List Nat → List Nat) (st : FeederSt) (b : List Nat) :
    consume D (pushData (consume D st) b) = consume D (pushData st b) := by
  by_cases h : 32 ≤ st.buf.length
  · have h16 : 16 ≤ st.buf.length := by omega
    have hpush : 32 ≤ (pushData st b).buf.length := by
      simp only [pushData, List.length_append]; omega
    have h1 : consume D st = consume D (stepSt D st) := by
      rw [consume]; simp [h]
    have h2 : consume D (pushData st b) = consume D (stepSt D (pushData st b)) := by
      conv_lhs => rw [consume]
      simp [hpush]
    have h3 : stepSt D (pushData st b) = pushData (stepSt D st) b := stepSt_pushData D st b h16
    rw [h1, consume_pushData D (stepSt D st) b, h2, h3]
  · have h1 : consume D st = st := by rw [consume]; simp [h]
    rw [h1]
termination_by st.buf.length
decreasing_by simp only [stepSt, List.length_drop]; omega

theorem feed_feed (D : List Nat → List Nat) (st : FeederSt) (a b : List Nat) :
    feed D (feed D st a) b = feed D st (a ++ b) := by
  unfold feed
  rw [consume_pushData]
  simp [pushData, List.append_assoc]

theorem loadAll_aux (results : List (Except PyErr (List PyCookie))) (cj : List PyCookie)
    (h : ∀ r ∈ results, absorbable r = true) :
    (results.foldl loadStep (Except.ok cj)).isOk = true := by
  induction results generalizing cj with
  | nil => rfl
  | cons r rest ih =>
    have hr := h r (by simp)
    have hrest : ∀ x ∈ rest, absorbable x = true := fun x hx => h x (by simp [hx])
    match r with
    | Except.ok cookies => exact ih (cookies.foldl setCookie cj) hrest
    | Except.error (PyErr.browserCookieError m) => exact ih cj hrest
    | Except.error (PyErr.nameError m) => simp [absorbable] at hr
    | Except.error (PyErr.otherError m) => simp [absorbable] at hr

theorem getDefaultProfile_no_default (template : String → String) (sections : List IniSection)
    (h : ∀ s ∈ sections, ¬ (s.defaultKey = some "1" ∧ s.isRelativeKey = some "1")) :
    getDefaultProfile template sections = Except.error noneNameErr := by
  induction sections with
  | nil => rfl
  | cons s rest ih =>
    have hs := h s (by simp)
    have hrest : ∀ x ∈ rest, ¬ (x.defaultKey = some "1" ∧ x.isRelativeKey = some "1") :=
      fun x hx => h x (by simp [hx])
    unfold getDefaultProfile
    match hd : s.defaultKey with
    | Option.none => exact ih hrest
    | some d =>
      by_cases hd1 : d = "1"
      · subst hd1
        match hr : s.isRelativeKey with
        | Option.none => simp [ih hrest]
        | some r =>
          by_cases hr1 : r = "1"
          · exact absurd ⟨hd, hr1 ▸ hr⟩ hs
          · simp [hr1, ih hrest]
      · simp [hd1, ih hrest]

/-- C1 (counterexample): the claim that the all-browsers entry point
absorbs any per-browser failure is false as stated: when the Firefox
pipeline fails with the `NameError` that `get_default_profile` raises on a
`profiles.ini` with no default relative section, `load` propagates the
exception instead of returning a jar. -/
theorem c1_counterexample_load_can_raise :
    (loadAll [Except.ok [],
      (getDefaultProfile (fun p => p) []).map (fun _ => ([] : List PyCookie))]).isOk = false := by
  rfl

/-- C1 (amended): the all-browsers entry point `load` absorbs exactly the
`BrowserCookieError` failures of the per-browser pipelines; when every
browser outcome is a success or a `BrowserCookieError`, the call returns a
(possibly empty) cookie collection. -/
theorem c1_load_absorbs_browser_cookie_errors
    (results : List (Except PyErr (List PyCookie)))
    (h : ∀ r ∈ results, absorbable r = true) :
    (loadAll results).isOk = true :=
  loadAll_aux results [] h

/-- C1 witness: a concrete run with one successful browser and one
`BrowserCookieError` browser returns a jar. -/
theorem c1_witness :
    (∀ r ∈ [Except.ok ([] : List PyCookie),
            Except.error (PyErr.browserCookieError "Can not find cookie file")],
        absorbable r = true) ∧
    (loadAll [Except.ok ([] : List PyCookie),
      Except.error (PyErr.browserCookieError "Can not find cookie file")]).isOk = true :=
  ⟨by decide, c1_load_absorbs_browser_cookie_errors _ (by decide)⟩

/-- C2 (counterexample): the claim that the store reader issues the newer
(`is_secure`) query first is false: on a store exposing both dialects the
first (and only) attempted dialect is the legacy `secure` query. -/
theorem c2_counterexample_first_dialect_is_legacy :
    (chromeQueryAttempts { hasLegacyColumns := true, hasNewColumns := true, rows := [] }
        "").head? = some Dialect.legacy ∧
    Dialect.legacy ≠ Dialect.newer := by
  exact ⟨rfl, by decide⟩

/-- C2 (amended): `Chrome.load` first issues the legacy column-name query
(`secure`) and only on a schema-mismatch error retries with the newer
column names (`is_secure`); a store exposing either dialect (in particular
one exposing only one of the two) still yields all of its rows. -/
theorem c2_legacy_first_with_fallback (st : ChromeStore) (domain : String) :
    (chromeQueryAttempts st domain).head? = some Dialect.legacy ∧
    (st.hasLegacyColumns = true ∨ st.hasNewColumns = true →
      chromeLoadQuery st domain = Except.ok (chromeQueryRows st domain)) := by
  constructor
  · unfold chromeQueryAttempts
    match queryDialect st domain Dialect.legacy with
    | Except.ok _ => rfl
    | Except.error _ => rfl
  · intro h
    by_cases hl : st.hasLegacyColumns
    · simp [chromeLoadQuery, queryDialect, hl]
    · have hn : st.hasNewColumns = true := by
        rcases h with h | h
        · exact absurd h hl
        · exact h
      simp [chromeLoadQuery, queryDialect, hl, hn]

/-- C2 witness: a store exposing only the newer dialect is read through
the fallback and yields all rows. -/
theorem c2_witness :
    (chromeQueryAttempts { hasLegacyColumns := false, hasNewColumns := true, rows := [] }
        "d").head? = some Dialect.legacy ∧
    chromeLoadQuery { hasLegacyColumns := false, hasNewColumns := true, rows := [] } "d"
      = Except.ok (chromeQueryRows
          { hasLegacyColumns := false, hasNewColumns := true, rows := [] } "d") :=
  ⟨(c2_legacy_first_with_fallback _ "d").1,
   (c2_legacy_first_with_fallback _ "d").2 (Or.inr rfl)⟩

/-- C3 (counterexample): the claim that `_decrypt` returns
`encrypted_value` unchanged when the value column is empty and the marker
is absent is false: at `value = ""`, `encrypted_value = b"abc"` the code
returns the empty `value`, not the bytes `b"abc"` (in either reading of
"returns encrypted_value": as raw bytes or as their text). -/
theorem c3_counterexample_returns_plain_value :
    chromeDecrypt (fun bs => bs) (List.replicate 16 32) "" [97, 98, 99]
        = some (DecOut.plain "") ∧
    some (DecOut.plain "") ≠ some (DecOut.decoded [97, 98, 99]) ∧
    DecOut.plain "" ≠ DecOut.plain "abc" := by
  refine ⟨by decide, by decide, by decide⟩

/-- C3 (amended): on the derived-key path, when the plaintext column is
empty and `encrypted_value` does not begin with the marker `b"v10"`,
`_decrypt` returns the (empty) `value` column unchanged — an empty result,
not `encrypted_value`. -/
theorem c3_empty_value_no_marker_returns_value (D : List Nat → List Nat) (iv ev : List Nat)
    (h : ev.take 3 ≠ v10Marker) :
    chromeDecrypt D iv "" ev = some (DecOut.plain "") := by
  unfold chromeDecrypt
  rw [if_pos (Or.inr h)]

/-- C3 witness: concrete markerless ciphertext. -/
theorem c3_witness :
    ([97, 98, 99] : List Nat).take 3 ≠ v10Marker ∧
    chromeDecrypt (fun bs => bs) [] "" [97, 98, 99] = some (DecOut.plain "") :=
  ⟨by decide, c3_empty_value_no_marker_returns_value _ _ _ (by decide)⟩

/-- A Chrome row whose `expires_utc` is zero. -/
def c4ZeroRow : ChromeRow :=
  { host_key := "example.com", path := "/", secure := 0, expires_utc := 0,
    name := "sid", value := "v", encrypted_value := [] }

/-- A Chrome row whose `expires_utc` is five seconds after the 1970
epoch, expressed in microseconds since 1601-01-01. -/
def c4NonzeroRow : ChromeRow :=
  { host_key := "example.com", path := "/", secure := 1, expires_utc := 11644473605000000,
    name := "sid2", value := "v2", encrypted_value := [] }

/-- C4 (counterexample): the claim that a zero `expires_utc` yields a
cookie with no fixed expiry (a session cookie, i.e. a `None` expiry) is
false: the code leaves the raw integer `0` as the cookie expiry, which in
`http.cookiejar` is a fixed expiry at the 1970 epoch, not an absent one. -/
theorem c4_counterexample_zero_keeps_raw_zero :
    (chromeProcessRow (fun v _ => v) c4ZeroRow).map PyCookie.expires = some (PyVal.int 0) ∧
    PyVal.int 0 ≠ PyVal.none := by
  refine ⟨by decide, by decide⟩

/-- C4 (amended): for a zero `expires_utc` the cookie keeps the raw
integer 0 as its expiry (not an absent/session expiry); for a non-zero
timestamp within `datetime` range, the microseconds since 1601-01-01 are
converted to the correct 1970-epoch time by subtracting the 11644473600-
second offset (modelled at UTC, exact microsecond arithmetic). -/
theorem c4_expiry_conversion (dec : String → List Nat → String) (row : ChromeRow) :
    (row.expires_utc = 0 →
      (chromeProcessRow dec row).map PyCookie.expires = some (PyVal.int 0)) ∧
    (row.expires_utc ≠ 0 → chromeMinMicros ≤ row.expires_utc →
      row.expires_utc ≤ chromeMaxMicros →
      (chromeProcessRow dec row).map PyCookie.expires
        = some (PyVal.float (row.expires_utc - microsFrom1601To1970))) := by
  constructor
  · intro h
    simp [chromeProcessRow, chromeRowExpires, h, create_cookie]
  · intro h h1 h2
    simp [chromeProcessRow, chromeRowExpires, h, h1, h2, create_cookie]

/-- C4 witness: both branches at concrete rows; five seconds past the
epoch comes out as exactly 5000000 microseconds since 1970. -/
theorem c4_witness :
    ((chromeProcessRow (fun v _ => v) c4ZeroRow).map PyCookie.expires = some (PyVal.int 0)) ∧
    ((chromeProcessRow (fun v _ => v) c4NonzeroRow).map PyCookie.expires
      = some (PyVal.float (c4NonzeroRow.expires_utc - microsFrom1601To1970))) ∧
    c4NonzeroRow.expires_utc - microsFrom1601To1970 = 5000000 :=
  ⟨(c4_expiry_conversion _ c4ZeroRow).1 (by decide),
   (c4_expiry_conversion _ c4NonzeroRow).2 (by decide) (by decide) (by decide),
   by decide⟩

/-- C5: on both decryption strategies a non-empty plaintext column passes
through verbatim, whatever the ciphertext column holds. -/
theorem c5_nonempty_value_passthrough (D : List Nat → List Nat) (iv : List Nat)
    (unprotect : List Nat → Option (List Nat)) (value : String) (ev evw : List Nat)
    (h : value ≠ "") :
    chromeDecrypt D iv value ev = some (DecOut.plain value) ∧
    chromeDecryptWindows unprotect value evw = some (DecOut.plain value) := by
  constructor
  · unfold chromeDecrypt
    rw [if_pos (Or.inl h)]
  · unfold chromeDecryptWindows
    rw [if_pos h]

/-- C5 witness: a non-empty value passes through on both strategies, even
against a marker-bearing ciphertext. -/
theorem c5_witness :
    chromeDecrypt (fun bs => bs) [] "sess" [118, 49, 48, 7] = some (DecOut.plain "sess") ∧
    chromeDecryptWindows (fun _ => Option.none) "sess" [1, 2] = some (DecOut.plain "sess") :=
  c5_nonempty_value_passthrough _ _ _ "sess" _ _ (by decide)

/-- C6: feeding the marker-stripped ciphertext to the CBC decrypter in two
halves produces exactly the plaintext of a single decrypt call over the
whole ciphertext — the split is never visible in the output. -/
theorem c6_two_feeds_equal_single (D : List Nat → List Nat) (iv ct : List Nat) :
    chromeAesDecryptTwoFeeds D iv ct = chromeAesDecryptSingleSpec D iv ct := by
  show feedFinal D (feed D (feed D (decrypterInit iv) (ct.take (ct.length / 2)))
      (ct.drop (ct.length / 2))) = feedFinal D (feed D (decrypterInit iv) ct)
  rw [feed_feed, List.take_append_drop]

/-- C7: a row whose timestamp conversion raises is skipped on its own;
every other row of the same batch is still returned. -/
theorem c7_bad_row_skipped (dec : String → List Nat → String) (xs ys : List ChromeRow)
    (bad : ChromeRow) (h : chromeRowExpires bad.expires_utc = Option.none) :
    chromeLoadRows dec (xs ++ bad :: ys) = chromeLoadRows dec xs ++ chromeLoadRows dec ys := by
  have hb : chromeProcessRow dec bad = Option.none := by
    simp [chromeProcessRow, h]
  simp [chromeLoadRows, List.filterMap_append, List.filterMap_cons, hb]

/-- A Chrome row whose `expires_utc` overflows the `datetime` range. -/
def c7BadRow : ChromeRow :=
  { host_key := "b.com", path := "/", secure := 0, expires_utc := 1000000000000000000,
    name := "bad", value := "x", encrypted_value := [] }

/-- C7 witness: with a concrete overflowing row between two good rows, the
two good rows are still returned. -/
theorem c7_witness :
    chromeRowExpires c7BadRow.expires_utc = Option.none ∧
    chromeLoadRows (fun v _ => v) ([c4ZeroRow] ++ c7BadRow :: [c4NonzeroRow])
      = chromeLoadRows (fun v _ => v) [c4ZeroRow]
        ++ chromeLoadRows (fun v _ => v) [c4NonzeroRow] :=
  ⟨by decide, c7_bad_row_skipped _ _ _ _ (by decide)⟩

/-- C8: session recovery adds nothing and raises nothing when an artifact
(plain or lz4-compressed) is absent; a malformed artifact (one whose
read or parse raises `ValueError`) is logged and treated as zero entries,
and the store-derived cookies are still returned. -/
theorem c8_session_artifacts_nonfatal (now : Int) (domain : String) (rows : List FirefoxRow)
    (m m2 : String) :
    firefoxLoad now domain rows ArtifactState.absent ArtifactState.absent
      = (firefoxStoreCookies domain rows, []) ∧
    firefoxLoad now domain rows (ArtifactState.malformed m) (ArtifactState.malformed m2)
      = (firefoxStoreCookies domain rows,
         ["Error parsing firefox session JSON: " ++ m,
          "Error parsing firefox session JSON LZ4: " ++ m2]) :=
  ⟨rfl, rfl⟩

/-- C9: every cookie built from a session-recovery entry is non-secure and
expires exactly 604800 seconds (7 days) after extraction time, whatever
the entry holds (in particular, whatever expiry field the artifact may
carry). -/
theorem c9_session_cookie_nonsecure_7day (now : Int) (j : SessionEntryJson) :
    (createSessionCookie now j).secure = PyVal.bool false ∧
    (createSessionCookie now j).expires = PyVal.str (toString (now + 604800)) := by
  constructor
  · rfl
  · show PyVal.str (toString (now + 3600 * 24 * 7)) = PyVal.str (toString (now + 604800))
    norm_num

/-- C10: with no `profiles.ini` section marked both `Default=1` and
`IsRelative=1`, `get_default_profile` ends in `return none`, which raises
a `NameError` (lowercase `none` is undefined) rather than returning an
absent value; and the darwin branch of `find_cookie_file` reads the local
`profiles_ini_path` before assignment, so it always fails with an
`UnboundLocalError`, which is not a `BrowserCookieError`. -/
theorem c10_profile_resolution_errors (template : String → String)
    (sections : List IniSection) (globs : List String) :
    ((∀ s ∈ sections, ¬ (s.defaultKey = some "1" ∧ s.isRelativeKey = some "1")) →
      getDefaultProfile template sections = Except.error noneNameErr) ∧
    (∃ e, findCookieFileDarwin sections globs = Except.error e ∧
      isBrowserCookieError e = false) := by
  constructor
  · exact getDefaultProfile_no_default template sections
  · exact ⟨PyErr.nameError
      "UnboundLocalError: local variable profiles_ini_path referenced before assignment",
      rfl, rfl⟩

/-- C10 witness: an empty manifest yields the `NameError`, and the darwin
path resolver fails with a non-`BrowserCookieError`. -/
theorem c10_witness :
    getDefaultProfile (fun p => p) [] = Except.error noneNameErr ∧
    (∃ e, findCookieFileDarwin [] [] = Except.error e ∧ isBrowserCookieError e = false) :=
  ⟨(c10_profile_resolution_errors (fun p => p) [] []).1 (by decide),
   (c10_profile_resolution_errors (fun p => p) [] []).2⟩
